import Mathlib

/-!
Verification of the creem-betterauth webhook ingestion and subscription
reconciliation engine.

The development shallowly embeds the TypeScript source:

* the JSON payload model and the type guards isWebhookEntity /
  isWebhookEventEntity (src/src/checkout-types.ts);
* the subscription reconciler updateSubscriptionFromEvent, the trial guard
  markUserAsHadTrial, the per-event hooks and onCheckoutCompleted
  (src/src/checkout-types.ts);
* the webhook endpoint handler createWebhookHandler and parseWebhookEvent
  (src/unnamed/part_002, src/src/utils.ts).

Conventions of the embedding:

* The storage adapter is modelled as explicit state: the creem_subscription
  table is an ordered list (scan order = adapter iteration order) and the
  user table, keyed by its primary id, is a function from id to record.
  Every adapter call is additionally recorded in an operation trace, so
  that the absence of reads or writes is a provable statement.
* JavaScript optional values are Option; the truthiness test !x on an
  optional string is strFalsy (absent or empty).
* Timestamps (created_at, current_period_start_date and
  current_period_end_date) are modelled as integers; the truthiness test
  on an incoming date corresponds to presence, since a present ISO date
  string is non-empty.
* HMAC-SHA256 (Web Crypto, called by generateSignature in src/src/utils.ts)
  and JSON.parse are external runtime primitives; the handler is
  parameterised over them.  The handler only compares the computed
  signature with the header and branches on parse success, so every
  theorem quantifies over these oracles.
-/

/-- A JSON value, the result of JSON.parse on the raw webhook body. -/
inductive Json where
  | null : Json
  | bool : Bool → Json
  | num : Int → Json
  | str : String → Json
  | arr : List Json → Json
  | obj : List (String × Json) → Json

/-- Property access on a parsed JSON value: some when the receiver is an
object carrying the key, none otherwise. -/
def getField : Json → String → Option Json
  | Json.obj fields, key => (fields.find? (fun f => f.1 == key)).map (fun f => f.2)
  | _, _ => none

/-- Read a string-valued property. -/
def getStr (j : Json) (key : String) : Option String :=
  match getField j key with
  | some (Json.str s) => some s
  | _ => none

/-- Read a string-valued property with a default for absence. -/
def getStrD (j : Json) (key : String) (dflt : String) : String :=
  (getStr j key).getD dflt

/-- Read an integer-valued property (used for created_at and the billing
period timestamps). -/
def getNum (j : Json) (key : String) : Option Int :=
  match getField j key with
  | some (Json.num n) => some n
  | _ => none

/-- JavaScript truthiness of an optional string: !x holds when the value is
absent, null or the empty string. -/
def strFalsy : Option String → Bool
  | none => true
  | some s => s.isEmpty

/-- Type guard isWebhookEntity from src/src/checkout-types.ts: the value is
an object whose discriminator field names one of the known entity kinds. -/
def isWebhookEntity (j : Json) : Bool :=
  match getStr j "object" with
  | some s =>
      ["checkout", "customer", "order", "product", "subscription",
       "refund", "dispute", "transaction"].contains s
  | none => false

/-- Type guard isWebhookEventEntity from src/src/checkout-types.ts: the
envelope carries a string eventType, a string id, a numeric created_at and
a recognised entity object. -/
def isWebhookEventEntity (j : Json) : Bool :=
  (getStr j "eventType").isSome &&
  (getStr j "id").isSome &&
  (getNum j "created_at").isSome &&
  ((getField j "object").isSome &&
    isWebhookEntity ((getField j "object").getD Json.null))

/-- A row of the creem_subscription table (interface Subscription in
src/src/checkout-types.ts). -/
structure Subscription where
  id : String
  productId : String
  referenceId : String
  creemCustomerId : Option String
  creemSubscriptionId : Option String
  creemOrderId : Option String
  status : String
  periodStart : Option Int
  periodEnd : Option Int
  cancelAtPeriodEnd : Option Bool
deriving DecidableEq, Repr

/-- The two user-table fields this engine touches. -/
structure User where
  creemCustomerId : Option String
  hadTrial : Option Bool
deriving DecidableEq, Repr

/-- The storage owned by the host adapter: the subscription table in scan
order, the user table keyed by primary id, and a counter for generated
row ids. -/
structure Db where
  subs : List Subscription
  users : String → Option User
  nextId : Nat

/-- One adapter call, recorded so that read/write behaviour is provable. -/
inductive Op where
  | findOne : String → String → String → Op
  | findMany : String → String → String → Op
  | create : String → Op
  | update : String → String → String → Op
deriving DecidableEq, Repr

/-- An adapter call that mutates storage. -/
def Op.isWrite : Op → Bool
  | Op.create _ => true
  | Op.update _ _ _ => true
  | _ => false

/-- An adapter call that mutates the user table. -/
def Op.isUserWrite : Op → Bool
  | Op.update m _ _ => m == "user"
  | _ => false

/-- A grant or revoke access-signal invocation with its reason string. -/
inductive Signal where
  | grant : String → Signal
  | revoke : String → Signal
deriving DecidableEq, Repr

/-- Plugin options relevant to the webhook core. -/
structure CreemOptions where
  webhookSecret : Option String
  persistSubscriptions : Option Bool

/-- The normalized subscription entity view read off the event object by
the reconciler: customer and product are none exactly when the
corresponding nested object is absent (in which case the property access
in the source throws and the surrounding catch turns the event into a
logged no-op). -/
structure SubscriptionEntity where
  id : String
  customer : Option String
  product : Option String
  status : String
  currentPeriodStartDate : Option Int
  currentPeriodEndDate : Option Int
  metadataReferenceId : Option String
deriving DecidableEq, Repr

/-- Decode the subscription entity view from the event object JSON,
mirroring the property accesses of updateSubscriptionFromEvent. -/
def asSubscriptionEntity (j : Json) : SubscriptionEntity :=
  { id := getStrD j "id" ""
    customer :=
      match getField j "customer" with
      | some (Json.obj fs) => some (getStrD (Json.obj fs) "id" "")
      | _ => none
    product :=
      match getField j "product" with
      | some (Json.obj fs) => some (getStrD (Json.obj fs) "id" "")
      | _ => none
    status := getStrD j "status" ""
    currentPeriodStartDate := getNum j "current_period_start_date"
    currentPeriodEndDate := getNum j "current_period_end_date"
    metadataReferenceId :=
      match getField j "metadata" with
      | some (Json.obj fs) => getStr (Json.obj fs) "referenceId"
      | _ => none }

/-- The checkout entity view read by onCheckoutCompleted.  customerId uses
the optional chain checkout.customer?.id; orderId is the id of the order
whether it arrives as an object or a bare string; productId is none when
the product object is absent (that access is not optional-chained and
throws into the surrounding catch). -/
structure CheckoutEntity where
  customerId : Option String
  metadataReferenceId : Option String
  subscription : Option SubscriptionEntity
  orderId : Option String
  productId : Option String
deriving DecidableEq, Repr

/-- Decode the checkout entity view from the event object JSON. -/
def asCheckoutEntity (j : Json) : CheckoutEntity :=
  { customerId :=
      match getField j "customer" with
      | some (Json.obj fs) => getStr (Json.obj fs) "id"
      | _ => none
    metadataReferenceId :=
      match getField j "metadata" with
      | some (Json.obj fs) => getStr (Json.obj fs) "referenceId"
      | _ => none
    subscription :=
      match getField j "subscription" with
      | some (Json.obj fs) => some (asSubscriptionEntity (Json.obj fs))
      | _ => none
    orderId :=
      match getField j "order" with
      | some (Json.obj fs) => some (getStrD (Json.obj fs) "id" "")
      | some (Json.str s) => if s.isEmpty then none else some s
      | _ => none
    productId :=
      match getField j "product" with
      | some (Json.obj fs) => some (getStrD (Json.obj fs) "id" "")
      | _ => none }

/-- The two-stage lookup of updateSubscriptionFromEvent
(src/src/checkout-types.ts lines 1200-1218): first an exact match on
creemSubscriptionId; otherwise, when the event carries a truthy customer
id, the records for that customer, preferring the one whose productId
matches and falling back to the first such record. -/
def lookupSubscription (subs : List Subscription) (subId customerId productId : String) :
    Option Subscription :=
  match subs.find? (fun s => s.creemSubscriptionId == some subId) with
  | some s => some s
  | none =>
      if customerId ≠ "" then
        let subscriptions := subs.filter (fun s => s.creemCustomerId == some customerId)
        match subscriptions.find? (fun s => s.productId == productId) with
        | some s => some s
        | none => subscriptions.head?
      else none

/-- The update payload built by updateSubscriptionFromEvent
(src/src/checkout-types.ts lines 1228-1244): status is overwritten, the
correlation ids are refreshed, each period bound is overwritten only when
the event carries a value, and cancelAtPeriodEnd is forced true on
scheduled_cancel, false on canceled and preserved otherwise. -/
def applySubscriptionUpdate (subscription : Subscription)
    (subscriptionData : SubscriptionEntity) (status : String) (customerId : String) :
    Subscription :=
  { subscription with
    status := status
    creemSubscriptionId := some subscriptionData.id
    creemCustomerId := some customerId
    periodStart :=
      match subscriptionData.currentPeriodStartDate with
      | some d => some d
      | none => subscription.periodStart
    periodEnd :=
      match subscriptionData.currentPeriodEndDate with
      | some d => some d
      | none => subscription.periodEnd
    cancelAtPeriodEnd :=
      if status == "scheduled_cancel" then some true
      else if status == "canceled" then some false
      else subscription.cancelAtPeriodEnd }

/-- The subscription reconciler updateSubscriptionFromEvent
(src/src/checkout-types.ts lines 1170-1258).  It returns the new storage
state together with the trace of adapter calls it made. -/
def updateSubscriptionFromEvent (db : Db) (subscriptionData : SubscriptionEntity)
    (status : String) (options : CreemOptions) : Db × List Op :=
  if options.persistSubscriptions == some false then (db, [])
  else if strFalsy subscriptionData.metadataReferenceId then (db, [])
  else
    match subscriptionData.customer, subscriptionData.product with
    | some customerId, some productId =>
        let ops1 := [Op.findOne "creem_subscription" "creemSubscriptionId" subscriptionData.id]
        let firstStage := db.subs.find? (fun s => s.creemSubscriptionId == some subscriptionData.id)
        let ops2 :=
          if firstStage.isNone && customerId ≠ "" then
            ops1 ++ [Op.findMany "creem_subscription" "creemCustomerId" customerId]
          else ops1
        match lookupSubscription db.subs subscriptionData.id customerId productId with
        | none => (db, ops2)
        | some subscription =>
            let updated := applySubscriptionUpdate subscription subscriptionData status customerId
            ({ db with
                subs := db.subs.map (fun s => if s.id == subscription.id then updated else s) },
             ops2 ++ [Op.update "creem_subscription" "id" subscription.id])
    | _, _ => (db, [])

/-- The trial-abuse guard markUserAsHadTrial (src/src/checkout-types.ts
lines 1001-1054): looks up the referenced user and sets hadTrial once. -/
def markUserAsHadTrial (db : Db) (subscriptionData : SubscriptionEntity)
    (options : CreemOptions) : Db × List Op :=
  if options.persistSubscriptions == some false then (db, [])
  else if strFalsy subscriptionData.metadataReferenceId then (db, [])
  else
    let referenceId := subscriptionData.metadataReferenceId.getD ""
    let ops1 := [Op.findOne "user" "id" referenceId]
    match db.users referenceId with
    | none => (db, ops1)
    | some user =>
        if user.hadTrial != some true then
          ({ db with
              users := fun uid =>
                if uid = referenceId then some { user with hadTrial := some true }
                else db.users uid },
           ops1 ++ [Op.update "user" "id" referenceId])
        else (db, ops1)

/-- Hook for subscription.active. -/
def onSubscriptionActive (db : Db) (e : SubscriptionEntity) (options : CreemOptions) :
    Db × List Op :=
  updateSubscriptionFromEvent db e "active" options

/-- Hook for subscription.trialing: reconcile to trialing, then run the
trial-abuse guard. -/
def onSubscriptionTrialing (db : Db) (e : SubscriptionEntity) (options : CreemOptions) :
    Db × List Op :=
  let r1 := updateSubscriptionFromEvent db e "trialing" options
  let r2 := markUserAsHadTrial r1.1 e options
  (r2.1, r1.2 ++ r2.2)

/-- Hook for subscription.canceled. -/
def onSubscriptionCanceled (db : Db) (e : SubscriptionEntity) (options : CreemOptions) :
    Db × List Op :=
  updateSubscriptionFromEvent db e "canceled" options

/-- Hook for subscription.scheduled_cancel (present in the source, not
wired into the webhook switch). -/
def onSubscriptionScheduledCancel (db : Db) (e : SubscriptionEntity) (options : CreemOptions) :
    Db × List Op :=
  updateSubscriptionFromEvent db e "scheduled_cancel" options

/-- Hook for subscription.paid: the resolved status is the status carried
by the event object. -/
def onSubscriptionPaid (db : Db) (e : SubscriptionEntity) (options : CreemOptions) :
    Db × List Op :=
  updateSubscriptionFromEvent db e e.status options

/-- Hook for subscription.expired.  The source passes the literal status
unpaid here (and flags it with a TODO), although its own documentation
says the record is updated to expired. -/
def onSubscriptionExpired (db : Db) (e : SubscriptionEntity) (options : CreemOptions) :
    Db × List Op :=
  updateSubscriptionFromEvent db e "unpaid" options

/-- Hook for subscription.unpaid. -/
def onSubscriptionUnpaid (db : Db) (e : SubscriptionEntity) (options : CreemOptions) :
    Db × List Op :=
  updateSubscriptionFromEvent db e "unpaid" options

/-- Hook for subscription.update: the resolved status is the status carried
by the event object. -/
def onSubscriptionUpdate (db : Db) (e : SubscriptionEntity) (options : CreemOptions) :
    Db × List Op :=
  updateSubscriptionFromEvent db e e.status options

/-- Hook for subscription.past_due.  The source passes the literal status
unpaid here (and flags it with a TODO), although its own documentation
says the record is updated to past_due. -/
def onSubscriptionPastDue (db : Db) (e : SubscriptionEntity) (options : CreemOptions) :
    Db × List Op :=
  updateSubscriptionFromEvent db e "unpaid" options

/-- Hook for subscription.paused. -/
def onSubscriptionPaused (db : Db) (e : SubscriptionEntity) (options : CreemOptions) :
    Db × List Op :=
  updateSubscriptionFromEvent db e "paused" options

/-- Hook for checkout.completed (src/src/checkout-types.ts lines 840-963):
best-effort first write of the user's creemCustomerId, then creation or
refresh of the subscription record embedded in the checkout. -/
def onCheckoutCompleted (db : Db) (checkout : CheckoutEntity) (options : CreemOptions) :
    Db × List Op :=
  if options.persistSubscriptions == some false then (db, [])
  else if strFalsy checkout.customerId then (db, [])
  else if strFalsy checkout.metadataReferenceId then (db, [])
  else
    let customerId := checkout.customerId.getD ""
    let referenceId := checkout.metadataReferenceId.getD ""
    let userOps := [Op.findOne "user" "id" referenceId]
    let afterUser :=
      match db.users referenceId with
      | some user =>
          if strFalsy user.creemCustomerId then
            ({ db with
                users := fun uid =>
                  if uid = referenceId then some { user with creemCustomerId := some customerId }
                  else db.users uid },
             userOps ++ [Op.update "user" "id" referenceId])
          else (db, userOps)
      | none => (db, userOps)
    let db1 := afterUser.1
    let ops1 := afterUser.2
    match checkout.subscription, checkout.orderId with
    | some subscriptionData, some orderId =>
        match checkout.productId with
        | none => (db1, ops1)
        | some productId =>
            if subscriptionData.id ≠ "" then
              let ops2 := ops1 ++
                [Op.findOne "creem_subscription" "creemSubscriptionId" subscriptionData.id]
              match db1.subs.find?
                  (fun s => s.creemSubscriptionId == some subscriptionData.id) with
              | some existingSubscription =>
                  let updated := { existingSubscription with
                    productId := productId
                    referenceId := referenceId
                    creemCustomerId := some customerId
                    creemSubscriptionId := some subscriptionData.id
                    creemOrderId := some orderId
                    status := subscriptionData.status
                    periodStart := subscriptionData.currentPeriodStartDate
                    periodEnd := subscriptionData.currentPeriodEndDate }
                  ({ db1 with
                      subs := db1.subs.map
                        (fun s => if s.id == existingSubscription.id then updated else s) },
                   ops2 ++ [Op.update "creem_subscription" "id" existingSubscription.id])
              | none =>
                  let created : Subscription :=
                    { id := "creem_sub_gen_" ++ toString db1.nextId
                      productId := productId
                      referenceId := referenceId
                      creemCustomerId := some customerId
                      creemSubscriptionId := some subscriptionData.id
                      creemOrderId := some orderId
                      status := subscriptionData.status
                      periodStart := subscriptionData.currentPeriodStartDate
                      periodEnd := subscriptionData.currentPeriodEndDate
                      cancelAtPeriodEnd := none }
                  ({ db1 with subs := db1.subs ++ [created], nextId := db1.nextId + 1 },
                   ops2 ++ [Op.create "creem_subscription"])
            else (db1, ops1)
    | _, _ => (db1, ops1)

/-- The result of dispatching one parsed event. -/
structure DispatchResult where
  db : Db
  ops : List Op
  signals : List Signal

/-- The event switch of createWebhookHandler (src/unnamed/part_002 lines
46-188): route the parsed event to its hook and fire the fixed grant or
revoke signal.  In the default branch the source builds a 400 response
but discards it, so an unknown event type is a pure no-op. -/
def handleEvent (options : CreemOptions) (db : Db) (event : Json) : DispatchResult :=
  let eventType := getStrD event "eventType" ""
  let obj := (getField event "object").getD Json.null
  if eventType = "checkout.completed" then
    let r := onCheckoutCompleted db (asCheckoutEntity obj) options
    ⟨r.1, r.2, []⟩
  else if eventType = "refund.created" then ⟨db, [], []⟩
  else if eventType = "dispute.created" then ⟨db, [], []⟩
  else if eventType = "subscription.active" then
    let r := onSubscriptionActive db (asSubscriptionEntity obj) options
    ⟨r.1, r.2, [Signal.grant "subscription_active"]⟩
  else if eventType = "subscription.trialing" then
    let r := onSubscriptionTrialing db (asSubscriptionEntity obj) options
    ⟨r.1, r.2, [Signal.grant "subscription_trialing"]⟩
  else if eventType = "subscription.canceled" then
    let r := onSubscriptionCanceled db (asSubscriptionEntity obj) options
    ⟨r.1, r.2, []⟩
  else if eventType = "subscription.paid" then
    let r := onSubscriptionPaid db (asSubscriptionEntity obj) options
    ⟨r.1, r.2, [Signal.grant "subscription_paid"]⟩
  else if eventType = "subscription.expired" then
    let r := onSubscriptionExpired db (asSubscriptionEntity obj) options
    ⟨r.1, r.2, [Signal.revoke "subscription_expired"]⟩
  else if eventType = "subscription.unpaid" then
    let r := onSubscriptionUnpaid db (asSubscriptionEntity obj) options
    ⟨r.1, r.2, []⟩
  else if eventType = "subscription.update" then
    let r := onSubscriptionUpdate db (asSubscriptionEntity obj) options
    ⟨r.1, r.2, []⟩
  else if eventType = "subscription.past_due" then
    let r := onSubscriptionPastDue db (asSubscriptionEntity obj) options
    ⟨r.1, r.2, []⟩
  else if eventType = "subscription.paused" then
    let r := onSubscriptionPaused db (asSubscriptionEntity obj) options
    ⟨r.1, r.2, [Signal.revoke "subscription_paused"]⟩
  else ⟨db, [], []⟩

/-- An inbound request as the handler sees it: the exact raw body and the
creem-signature header. -/
structure WebhookRequest where
  body : String
  signature : Option String
deriving DecidableEq, Repr

/-- An HTTP response of the webhook endpoint. -/
structure WebhookResponse where
  status : Nat
  message : String
deriving DecidableEq, Repr

/-- The observable outcome of one handler invocation: the response, the
resulting storage, the adapter-call trace, the fired access signals and
whether body parsing was attempted. -/
structure HandlerResult where
  response : WebhookResponse
  db : Db
  ops : List Op
  signals : List Signal
  parsedBody : Bool

/-- parseWebhookEvent (src/src/utils.ts lines 39-50): JSON.parse, then the
shape guard; none models the thrown parse or validation error. -/
def parseWebhookEvent (jsonParse : String → Option Json) (payload : String) : Option Json :=
  match jsonParse payload with
  | none => none
  | some event => if isWebhookEventEntity event then some event else none

/-- The webhook endpoint handler createWebhookHandler (src/unnamed/part_002
lines 18-195), parameterised over the HMAC primitive generateSignature and
JSON.parse.  Signature verification runs before parsing and dispatch; a
thrown parse error is caught by the surrounding try and answered 500. -/
def createWebhookHandler (generateSignature : String → String → String)
    (jsonParse : String → Option Json) (options : CreemOptions)
    (request : Option WebhookRequest) (db : Db) : HandlerResult :=
  match request with
  | none => ⟨⟨400, "Request is required"⟩, db, [], [], false⟩
  | some request =>
      let buf := request.body
      let signature := request.signature
      if strFalsy options.webhookSecret then
        ⟨⟨400, "Invalid signature"⟩, db, [], [], false⟩
      else
        let computedSignature := generateSignature buf (options.webhookSecret.getD "")
        if signature ≠ some computedSignature then
          ⟨⟨400, "Invalid signature"⟩, db, [], [], false⟩
        else
          match parseWebhookEvent jsonParse buf with
          | none => ⟨⟨500, "Failed to process webhook"⟩, db, [], [], true⟩
          | some event =>
              let r := handleEvent options db event
              ⟨⟨200, "Webhook received"⟩, r.db, r.ops, r.signals, true⟩

/-! Concrete fixtures shared by the evaluation theorems below. -/

/-- Options with a configured webhook secret and persistence enabled. -/
def optionsPersist : CreemOptions := ⟨some "whsec", none⟩

/-- An empty storage state. -/
def dbEmpty : Db := ⟨[], fun _ => none, 0⟩

/-! Claim C1. -/


/-! Concrete fixtures used by the evaluation theorems and witnesses below. -/

/-- An envelope with an event type outside the known twelve. -/
def jUnknownEvent : Json :=
  Json.obj [("eventType", Json.str "mystery.event"), ("id", Json.str "evt_1"),
    ("created_at", Json.num 1), ("object", Json.obj [("object", Json.str "subscription")])]

/-- A stored record matched by providerSubscriptionId sub_1. -/
def subRecMatched : Subscription :=
  ⟨"local_1", "prod_1", "user_1", some "cus_1", some "sub_1", none, "active", none, none, none⟩

/-- Storage holding exactly that record. -/
def dbMatched : Db := ⟨[subRecMatched], fun _ => none, 0⟩

/-- A subscription entity carrying status expired, as a subscription.expired
event object would. -/
def entExpired : SubscriptionEntity :=
  ⟨"sub_1", some "cus_1", some "prod_1", "expired", none, none, some "user_1"⟩

/-- A subscription entity carrying status past_due. -/
def entPastDue : SubscriptionEntity :=
  ⟨"sub_1", some "cus_1", some "prod_1", "past_due", none, none, some "user_1"⟩

/-- A subscription entity for sub_1 used to drive two consecutive
reconciliations. -/
def entForFlag : SubscriptionEntity :=
  ⟨"sub_1", some "cus_1", some "prod_1", "active", none, none, some "user_1"⟩

/-- An entity whose metadata carries no referenceId even though a stored
record matches its providerSubscriptionId exactly. -/
def entNoReference : SubscriptionEntity :=
  ⟨"sub_1", some "cus_1", some "prod_1", "active", none, none, none⟩

/-- A stored record carrying an existing billing period. -/
def subRecWithPeriod : Subscription :=
  ⟨"local_1", "prod_1", "user_1", some "cus_1", some "sub_1", none, "active",
   some 10, some 77, none⟩

/-- Storage holding exactly that record. -/
def dbWithPeriod : Db := ⟨[subRecWithPeriod], fun _ => none, 0⟩

/-- An event for sub_1 carrying no period values. -/
def entNoPeriod : SubscriptionEntity :=
  ⟨"sub_1", some "cus_1", some "prod_1", "active", none, none, some "user_1"⟩

/-- Event A: created_at 10, billing period ending at 100. -/
def evFresh : Json :=
  Json.obj [("eventType", Json.str "subscription.update"), ("id", Json.str "evt_A"),
    ("created_at", Json.num 10),
    ("object", Json.obj [("object", Json.str "subscription"), ("id", Json.str "sub_1"),
      ("customer", Json.obj [("id", Json.str "cus_1")]),
      ("product", Json.obj [("id", Json.str "prod_1")]),
      ("status", Json.str "active"), ("current_period_end_date", Json.num 100),
      ("metadata", Json.obj [("referenceId", Json.str "user_1")])])]

/-- Event B: created_at 5 (older than event A), billing period ending at 50. -/
def evStale : Json :=
  Json.obj [("eventType", Json.str "subscription.update"), ("id", Json.str "evt_B"),
    ("created_at", Json.num 5),
    ("object", Json.obj [("object", Json.str "subscription"), ("id", Json.str "sub_1"),
      ("customer", Json.obj [("id", Json.str "cus_1")]),
      ("product", Json.obj [("id", Json.str "prod_1")]),
      ("status", Json.str "active"), ("current_period_end_date", Json.num 50),
      ("metadata", Json.obj [("referenceId", Json.str "user_1")])])]

/-- An event for sub_1 carrying an earlier period end than the stored 77. -/
def entEarlierPeriod : SubscriptionEntity :=
  ⟨"sub_1", some "cus_1", some "prod_1", "active", none, some 33, some "user_1"⟩

/-- A well-formed subscription.paused event envelope. -/
def jPausedEvent : Json :=
  Json.obj [("eventType", Json.str "subscription.paused"), ("id", Json.str "evt_p"),
    ("created_at", Json.num 1),
    ("object", Json.obj [("object", Json.str "subscription"), ("id", Json.str "sub_1"),
      ("customer", Json.obj [("id", Json.str "cus_1")]),
      ("product", Json.obj [("id", Json.str "prod_1")]),
      ("status", Json.str "paused"),
      ("metadata", Json.obj [("referenceId", Json.str "user_1")])])]

/-- A stored record whose providerSubscriptionId does not match the next
event but whose customer and product do. -/
def subRecFallback : Subscription :=
  ⟨"local_9", "prod_1", "user_1", some "cus_1", some "sub_old", none, "trialing",
   none, none, none⟩

/-- Storage holding only that record. -/
def dbFallback : Db := ⟨[subRecFallback], fun _ => none, 0⟩

/-- An event for an unknown providerSubscriptionId, same customer and
product as the stored record. -/
def entFallback : SubscriptionEntity :=
  ⟨"sub_new", some "cus_1", some "prod_1", "active", none, none, some "user_1"⟩

/-- A user who has not yet had a trial. -/
def userNoTrial : User := ⟨none, none⟩

/-- Storage containing only that user, keyed as user_1. -/
def dbUserOnly : Db :=
  ⟨[], fun uid => if uid = "user_1" then some userNoTrial else none, 0⟩

/-! Claim C1. -/

/-- C1: for every inbound request, if no webhook secret is configured, or
the creem-signature header is absent, or the header differs from the
signature computed over the exact raw body under the secret, the handler
answers 400, never attempts to parse the body, and leaves storage
untouched with an empty adapter trace. -/
theorem webhook_C1_signature_gate
    (generateSignature : String → String → String) (jsonParse : String → Option Json)
    (options : CreemOptions) (request : WebhookRequest) (db : Db)
    (h : strFalsy options.webhookSecret = true ∨ request.signature = none ∨
      request.signature ≠
        some (generateSignature request.body (options.webhookSecret.getD ""))) :
    (createWebhookHandler generateSignature jsonParse options (some request) db).response.status
        = 400 ∧
    (createWebhookHandler generateSignature jsonParse options (some request) db).parsedBody
        = false ∧
    (createWebhookHandler generateSignature jsonParse options (some request) db).db = db ∧
    (createWebhookHandler generateSignature jsonParse options (some request) db).ops = [] := by
  rcases h with h | h | h
  · simp [createWebhookHandler, h]
  · by_cases hs : strFalsy options.webhookSecret = true
    · simp [createWebhookHandler, hs]
    · simp [createWebhookHandler, hs, h]
  · by_cases hs : strFalsy options.webhookSecret = true
    · simp [createWebhookHandler, hs]
    · simp [createWebhookHandler, hs, h]

/-- C1 witness: a request whose header disagrees with the computed
signature is rejected with 400, unparsed, and without storage effect. -/
theorem webhook_C1_signature_gate_witness :
    (createWebhookHandler (fun _ _ => "good") (fun _ => none) optionsPersist
        (some ⟨"body", some "bad"⟩) dbEmpty).response.status = 400 ∧
    (createWebhookHandler (fun _ _ => "good") (fun _ => none) optionsPersist
        (some ⟨"body", some "bad"⟩) dbEmpty).parsedBody = false ∧
    (createWebhookHandler (fun _ _ => "good") (fun _ => none) optionsPersist
        (some ⟨"body", some "bad"⟩) dbEmpty).db = dbEmpty ∧
    (createWebhookHandler (fun _ _ => "good") (fun _ => none) optionsPersist
        (some ⟨"body", some "bad"⟩) dbEmpty).ops = [] :=
  webhook_C1_signature_gate (fun _ _ => "good") (fun _ => none) optionsPersist
    ⟨"body", some "bad"⟩ dbEmpty (Or.inr (Or.inr (by decide)))

/-! Claim C2. -/

/-- Helper: once the secret is configured, the header matches the computed
signature and the body parses and validates, the handler acknowledges with
200 regardless of what dispatch does to storage. -/
theorem handler_ack (generateSignature : String → String → String)
    (jsonParse : String → Option Json) (options : CreemOptions)
    (request : WebhookRequest) (db : Db) (j : Json)
    (hsecret : strFalsy options.webhookSecret = false)
    (hsig : request.signature =
      some (generateSignature request.body (options.webhookSecret.getD "")))
    (hparse : parseWebhookEvent jsonParse request.body = some j) :
    (createWebhookHandler generateSignature jsonParse options (some request) db).response =
      ⟨200, "Webhook received"⟩ := by
  simp [createWebhookHandler, hsecret, hsig, hparse]

/-- C2 counterexample: a request that passes signature verification but
whose body is malformed is answered 500, not 200, because the parse error
is caught by the top-level try and converted into a server error. -/
theorem webhook_C2_counterexample :
    (createWebhookHandler (fun _ _ => "sig") (fun _ => none) optionsPersist
        (some ⟨"not json", some "sig"⟩) dbEmpty).response.status = 500 ∧
    (500 : Nat) ≠ 200 := by
  constructor
  · rfl
  · decide

/-- C2 amended: a request that passes signature verification and whose body
parses and validates as an event envelope is answered 200 with the message
Webhook received, for every event type and storage state (so in particular
for unknown event types and for reconciliations that find nothing); when
the body fails to parse or validate, the handler answers 500; only a
signature failure yields 400. -/
theorem webhook_C2_response_policy (generateSignature : String → String → String)
    (jsonParse : String → Option Json) (options : CreemOptions)
    (request : WebhookRequest) (db : Db)
    (hsecret : strFalsy options.webhookSecret = false)
    (hsig : request.signature =
      some (generateSignature request.body (options.webhookSecret.getD ""))) :
    ((∀ j, parseWebhookEvent jsonParse request.body = some j →
        (createWebhookHandler generateSignature jsonParse options (some request) db).response =
          ⟨200, "Webhook received"⟩) ∧
     (parseWebhookEvent jsonParse request.body = none →
        (createWebhookHandler generateSignature jsonParse options (some request) db).response =
          ⟨500, "Failed to process webhook"⟩)) := by
  constructor
  · intro j hparse
    exact handler_ack generateSignature jsonParse options request db j hsecret hsig hparse
  · intro hparse
    simp [createWebhookHandler, hsecret, hsig, hparse]

/-- C2 witness: an unknown event type that passes signature verification is
acknowledged with 200. -/
theorem webhook_C2_response_policy_witness :
    (createWebhookHandler (fun _ _ => "sig") (fun _ => some jUnknownEvent)
        optionsPersist (some ⟨"payload", some "sig"⟩) dbEmpty).response =
      ⟨200, "Webhook received"⟩ :=
  (webhook_C2_response_policy (fun _ _ => "sig") (fun _ => some jUnknownEvent)
      optionsPersist ⟨"payload", some "sig"⟩ dbEmpty rfl rfl).1 jUnknownEvent rfl

/-! Claim C4. -/

/-- C4 evaluation: the subscription.expired and subscription.past_due hooks
both store the literal status unpaid, not expired or past_due, although
their own doc comments announce expired and past_due; each such hook even
flags its status argument with a TODO. -/
theorem hooks_C4_expired_pastdue_store_unpaid :
    (onSubscriptionExpired dbMatched entExpired optionsPersist).1.subs.map
        (fun s => s.status) = ["unpaid"] ∧
    (onSubscriptionPastDue dbMatched entPastDue optionsPersist).1.subs.map
        (fun s => s.status) = ["unpaid"] ∧
    ("unpaid" : String) ≠ "expired" ∧
    ("unpaid" : String) ≠ "past_due" := by
  refine ⟨by decide, by decide, by decide, by decide⟩

/-! Claim C7. -/

/-- C7 counterexample: after a scheduled_cancel reconciliation followed by
an active reconciliation, the stored record holds cancelAtPeriodEnd true
while its status is active, so the flag is not true only while the status
is scheduled_cancel. -/
theorem reconciler_C7_counterexample :
    ((updateSubscriptionFromEvent
        (updateSubscriptionFromEvent dbMatched entForFlag "scheduled_cancel" optionsPersist).1
        entForFlag "active" optionsPersist).1.subs.map
          (fun s => (s.status, s.cancelAtPeriodEnd)) = [("active", some true)]) ∧
    ("active" : String) ≠ "scheduled_cancel" := by
  refine ⟨by decide, by decide⟩

/-- C7 amended: each applied update sets cancelAtPeriodEnd true exactly
when the resolved status is scheduled_cancel, false when it is canceled,
and leaves the stored flag unchanged for every other status; the flag is
not an invariant of the stored status and can remain true after a later
non-canceled status overwrites scheduled_cancel. -/
theorem reconciler_C7_flag_rule (subscription : Subscription)
    (e : SubscriptionEntity) (status customerId : String) :
    (applySubscriptionUpdate subscription e status customerId).cancelAtPeriodEnd =
      (if status = "scheduled_cancel" then some true
       else if status = "canceled" then some false
       else subscription.cancelAtPeriodEnd) := by
  by_cases h1 : status = "scheduled_cancel" <;>
    by_cases h2 : status = "canceled" <;>
      simp [applySubscriptionUpdate, h1, h2]

/-! Claim C10. -/

/-- C10: when the event's subscription metadata carries no truthy
referenceId, the reconciler and the trial guard return before any adapter
call, leaving storage identical and the trace empty, whatever records
exist; and any such request that passed signature verification and parsing
is still acknowledged with 200. -/
theorem reconciler_C10_requires_reference (db : Db) (e : SubscriptionEntity)
    (status : String) (options : CreemOptions)
    (href : strFalsy e.metadataReferenceId = true) :
    updateSubscriptionFromEvent db e status options = (db, []) ∧
    markUserAsHadTrial db e options = (db, []) ∧
    (∀ (generateSignature : String → String → String) (jsonParse : String → Option Json)
        (request : WebhookRequest) (j : Json),
      strFalsy options.webhookSecret = false →
      request.signature =
        some (generateSignature request.body (options.webhookSecret.getD "")) →
      parseWebhookEvent jsonParse request.body = some j →
      (createWebhookHandler generateSignature jsonParse options
          (some request) db).response.status = 200) := by
  refine ⟨?_, ?_, ?_⟩
  · by_cases hp : (options.persistSubscriptions == some false) = true <;>
      simp [updateSubscriptionFromEvent, hp, href]
  · by_cases hp : (options.persistSubscriptions == some false) = true <;>
      simp [markUserAsHadTrial, hp, href]
  · intro g jp request j hsecret hsig hparse
    rw [handler_ack g jp options request db j hsecret hsig hparse]

/-- C10 witness: with a record matching sub_1 in storage, an event without
referenceId performs no adapter call at all. -/
theorem reconciler_C10_requires_reference_witness :
    updateSubscriptionFromEvent dbMatched entNoReference "active" optionsPersist =
      (dbMatched, []) ∧
    markUserAsHadTrial dbMatched entNoReference optionsPersist = (dbMatched, []) :=
  ⟨(reconciler_C10_requires_reference dbMatched entNoReference "active" optionsPersist rfl).1,
   (reconciler_C10_requires_reference dbMatched entNoReference "active" optionsPersist rfl).2.1⟩

/-! Claims C5 and C8 both concern the stored update of a located record. -/

/-- Helper: when persistence is on, the event carries a truthy referenceId
and expanded customer and product objects, and the lookup locates a
record, the reconciler stores exactly applySubscriptionUpdate of that
record, keyed by its local id. -/
theorem updateSubscriptionFromEvent_located (db : Db) (e : SubscriptionEntity)
    (status : String) (options : CreemOptions) (customerId productId : String)
    (subscription : Subscription)
    (hpersist : (options.persistSubscriptions == some false) = false)
    (href : strFalsy e.metadataReferenceId = false)
    (hcust : e.customer = some customerId)
    (hprod : e.product = some productId)
    (hfound : lookupSubscription db.subs e.id customerId productId = some subscription) :
    (updateSubscriptionFromEvent db e status options).1.subs =
      db.subs.map (fun s =>
        if s.id == subscription.id
        then applySubscriptionUpdate subscription e status customerId else s) := by
  simp [updateSubscriptionFromEvent, hpersist, href, hcust, hprod, hfound]

/-- C5: in an update applied to a located record, each billing-period bound
is overwritten exactly when the event carries a value for it and is
preserved unchanged otherwise, and what is stored for the record is
precisely that update. -/
theorem reconciler_C5_period_frame (db : Db) (e : SubscriptionEntity)
    (status : String) (options : CreemOptions) (customerId productId : String)
    (subscription : Subscription)
    (hpersist : (options.persistSubscriptions == some false) = false)
    (href : strFalsy e.metadataReferenceId = false)
    (hcust : e.customer = some customerId)
    (hprod : e.product = some productId)
    (hfound : lookupSubscription db.subs e.id customerId productId = some subscription) :
    ((updateSubscriptionFromEvent db e status options).1.subs =
      db.subs.map (fun s =>
        if s.id == subscription.id
        then applySubscriptionUpdate subscription e status customerId else s)) ∧
    (e.currentPeriodStartDate = none →
      (applySubscriptionUpdate subscription e status customerId).periodStart =
        subscription.periodStart) ∧
    (∀ t, e.currentPeriodStartDate = some t →
      (applySubscriptionUpdate subscription e status customerId).periodStart = some t) ∧
    (e.currentPeriodEndDate = none →
      (applySubscriptionUpdate subscription e status customerId).periodEnd =
        subscription.periodEnd) ∧
    (∀ t, e.currentPeriodEndDate = some t →
      (applySubscriptionUpdate subscription e status customerId).periodEnd = some t) := by
  refine ⟨updateSubscriptionFromEvent_located db e status options customerId productId
    subscription hpersist href hcust hprod hfound, ?_, ?_, ?_, ?_⟩
  · intro h; simp [applySubscriptionUpdate, h]
  · intro t h; simp [applySubscriptionUpdate, h]
  · intro h; simp [applySubscriptionUpdate, h]
  · intro t h; simp [applySubscriptionUpdate, h]

/-- C5 witness: an event without period values leaves the stored bounds
untouched while still rewriting the record. -/
theorem reconciler_C5_period_frame_witness :
    ((updateSubscriptionFromEvent dbWithPeriod entNoPeriod "active" optionsPersist).1.subs =
      dbWithPeriod.subs.map (fun s =>
        if s.id == subRecWithPeriod.id
        then applySubscriptionUpdate subRecWithPeriod entNoPeriod "active" "cus_1" else s)) ∧
    ((applySubscriptionUpdate subRecWithPeriod entNoPeriod "active" "cus_1").periodEnd =
      subRecWithPeriod.periodEnd) :=
  ⟨(reconciler_C5_period_frame dbWithPeriod entNoPeriod "active" optionsPersist
      "cus_1" "prod_1" subRecWithPeriod rfl rfl rfl rfl rfl).1,
   (reconciler_C5_period_frame dbWithPeriod entNoPeriod "active" optionsPersist
      "cus_1" "prod_1" subRecWithPeriod rfl rfl rfl rfl rfl).2.2.2.1 rfl⟩

/-! Claim C8. -/

/-- C8 counterexample: after the fresh event stores periodEnd 100, the
stale event (older created_at, earlier period) rolls the stored bound back
to 50 — the reconciler never consults created_at. -/
theorem reconciler_C8_counterexample :
    ((handleEvent optionsPersist dbMatched evFresh).db.subs.map (fun s => s.periodEnd) =
      [some 100]) ∧
    ((handleEvent optionsPersist
        (handleEvent optionsPersist dbMatched evFresh).db evStale).db.subs.map
          (fun s => s.periodEnd) = [some 50]) ∧
    (getNum evStale "created_at" = some 5 ∧ getNum evFresh "created_at" = some 10 ∧
      (5 : Int) < 10) ∧
    ((50 : Int) < 100) := by
  refine ⟨by decide, by decide, ⟨by decide, by decide, by decide⟩, by decide⟩

/-- C8 amended: period bounds are overwritten with whatever values the
event carries, with no comparison against the event's creation time or the
stored values; in particular an event whose period end is strictly earlier
than the stored one still replaces it, so a stale event does roll the
period backward. -/
theorem reconciler_C8_overwrite_unguarded (db : Db) (e : SubscriptionEntity)
    (status : String) (options : CreemOptions) (customerId productId : String)
    (subscription : Subscription) (t1 t2 : Int)
    (hpersist : (options.persistSubscriptions == some false) = false)
    (href : strFalsy e.metadataReferenceId = false)
    (hcust : e.customer = some customerId)
    (hprod : e.product = some productId)
    (hfound : lookupSubscription db.subs e.id customerId productId = some subscription)
    (hstored : subscription.periodEnd = some t1)
    (hcarried : e.currentPeriodEndDate = some t2)
    (hstale : t2 < t1) :
    ((updateSubscriptionFromEvent db e status options).1.subs =
      db.subs.map (fun s =>
        if s.id == subscription.id
        then applySubscriptionUpdate subscription e status customerId else s)) ∧
    (applySubscriptionUpdate subscription e status customerId).periodEnd = some t2 := by
  refine ⟨updateSubscriptionFromEvent_located db e status options customerId productId
    subscription hpersist href hcust hprod hfound, ?_⟩
  simp [applySubscriptionUpdate, hcarried]

/-- C8 witness: the stored period end 77 is rolled back to the stale 33. -/
theorem reconciler_C8_overwrite_unguarded_witness :
    ((updateSubscriptionFromEvent dbWithPeriod entEarlierPeriod "active"
        optionsPersist).1.subs =
      dbWithPeriod.subs.map (fun s =>
        if s.id == subRecWithPeriod.id
        then applySubscriptionUpdate subRecWithPeriod entEarlierPeriod "active" "cus_1"
        else s)) ∧
    (applySubscriptionUpdate subRecWithPeriod entEarlierPeriod "active" "cus_1").periodEnd =
      some 33 :=
  reconciler_C8_overwrite_unguarded dbWithPeriod entEarlierPeriod "active" optionsPersist
    "cus_1" "prod_1" subRecWithPeriod 77 33 rfl rfl rfl rfl rfl rfl rfl (by decide)

/-! Claim C6. -/

/-- C6: for every verified, well-formed event, the fired access signals
are exactly those of the fixed table — grant subscription_active, grant
subscription_trialing, grant subscription_paid, revoke subscription_expired
and revoke subscription_paused for the corresponding event types, and no
signal for every other event type. -/
theorem webhook_C6_signal_table (generateSignature : String → String → String)
    (jsonParse : String → Option Json) (options : CreemOptions)
    (request : WebhookRequest) (db : Db) (j : Json) (eventType : String)
    (hsecret : strFalsy options.webhookSecret = false)
    (hsig : request.signature =
      some (generateSignature request.body (options.webhookSecret.getD "")))
    (hparse : parseWebhookEvent jsonParse request.body = some j)
    (hET : getStrD j "eventType" "" = eventType) :
    (createWebhookHandler generateSignature jsonParse options (some request) db).signals =
      (if eventType = "subscription.active" then [Signal.grant "subscription_active"]
       else if eventType = "subscription.trialing" then [Signal.grant "subscription_trialing"]
       else if eventType = "subscription.paid" then [Signal.grant "subscription_paid"]
       else if eventType = "subscription.expired" then [Signal.revoke "subscription_expired"]
       else if eventType = "subscription.paused" then [Signal.revoke "subscription_paused"]
       else []) := by
  have hrun : (createWebhookHandler generateSignature jsonParse options
      (some request) db).signals = (handleEvent options db j).signals := by
    simp [createWebhookHandler, hsecret, hsig, hparse]
  rw [hrun]
  unfold handleEvent
  rw [hET]
  by_cases h1 : eventType = "checkout.completed"
  · simp [h1]
  by_cases h2 : eventType = "refund.created"
  · simp [h1, h2]
  by_cases h3 : eventType = "dispute.created"
  · simp [h1, h2, h3]
  by_cases h4 : eventType = "subscription.active"
  · simp [h1, h2, h3, h4]
  by_cases h5 : eventType = "subscription.trialing"
  · simp [h1, h2, h3, h4, h5]
  by_cases h6 : eventType = "subscription.canceled"
  · simp [h1, h2, h3, h4, h5, h6]
  by_cases h7 : eventType = "subscription.paid"
  · simp [h1, h2, h3, h4, h5, h6, h7]
  by_cases h8 : eventType = "subscription.expired"
  · simp [h1, h2, h3, h4, h5, h6, h7, h8]
  by_cases h9 : eventType = "subscription.unpaid"
  · simp [h1, h2, h3, h4, h5, h6, h7, h8, h9]
  by_cases h10 : eventType = "subscription.update"
  · simp [h1, h2, h3, h4, h5, h6, h7, h8, h9, h10]
  by_cases h11 : eventType = "subscription.past_due"
  · simp [h1, h2, h3, h4, h5, h6, h7, h8, h9, h10, h11]
  by_cases h12 : eventType = "subscription.paused"
  · simp [h1, h2, h3, h4, h5, h6, h7, h8, h9, h10, h11, h12]
  · simp [h1, h2, h3, h4, h5, h6, h7, h8, h9, h10, h11, h12]

/-- C6 witness: a verified subscription.paused event fires exactly one
revoke signal with reason subscription_paused. -/
theorem webhook_C6_signal_table_witness :
    (createWebhookHandler (fun _ _ => "sig") (fun _ => some jPausedEvent)
        optionsPersist (some ⟨"payload", some "sig"⟩) dbEmpty).signals =
      [Signal.revoke "subscription_paused"] :=
  (webhook_C6_signal_table (fun _ _ => "sig") (fun _ => some jPausedEvent)
      optionsPersist ⟨"payload", some "sig"⟩ dbEmpty jPausedEvent
      "subscription.paused" rfl rfl rfl rfl).trans (by decide)

/-! Claim C3. -/

/-- Helper: if exactly one element of a list satisfies both predicates,
then searching the first-predicate sublist for the second predicate finds
exactly that element. -/
theorem find?_filter_of_filter_pair {p q : Subscription → Bool}
    {l : List Subscription} {x : Subscription}
    (h : l.filter (fun s => p s && q s) = [x]) :
    (l.filter p).find? q = some x := by
  induction l with
  | nil => simp at h
  | cons a t ih =>
    by_cases hp : p a = true
    · by_cases hq : q a = true
      · simp only [List.filter_cons, hp, hq, Bool.and_self, if_true] at h
        rw [List.cons_eq_cons] at h
        obtain ⟨rfl, -⟩ := h
        rw [List.filter_cons, if_pos hp]
        exact List.find?_cons_of_pos _ hq
      · simp only [List.filter_cons, hp, hq, Bool.and_false, if_false] at h
        rw [List.filter_cons, if_pos hp, List.find?_cons_of_neg _ hq]
        exact ih h
    · simp only [List.filter_cons, hp, Bool.false_and, if_false] at h
      rw [List.filter_cons, if_neg hp]
      exact ih h

/-- Helper: the adapter trace of a reconciliation that locates a record is
the one or two lookup calls followed by exactly one update keyed by the
located record's local id. -/
theorem updateSubscriptionFromEvent_located_ops (db : Db) (e : SubscriptionEntity)
    (status : String) (options : CreemOptions) (customerId productId : String)
    (subscription : Subscription)
    (hpersist : (options.persistSubscriptions == some false) = false)
    (href : strFalsy e.metadataReferenceId = false)
    (hcust : e.customer = some customerId)
    (hprod : e.product = some productId)
    (hfound : lookupSubscription db.subs e.id customerId productId = some subscription) :
    (updateSubscriptionFromEvent db e status options).2 =
      (if (db.subs.find? (fun s => s.creemSubscriptionId == some e.id)).isNone &&
          customerId ≠ "" then
        [Op.findOne "creem_subscription" "creemSubscriptionId" e.id,
         Op.findMany "creem_subscription" "creemCustomerId" customerId]
       else [Op.findOne "creem_subscription" "creemSubscriptionId" e.id]) ++
      [Op.update "creem_subscription" "id" subscription.id] := by
  simp only [updateSubscriptionFromEvent, hpersist, href, hcust, hprod, hfound,
    Bool.false_eq_true, if_false]
  split <;> simp

/-- C3: the reconciler's lookup follows the two-stage first-hit-wins
algorithm, a miss performs no write, and a unique customer-and-product
match is updated in place with no record created. -/
theorem reconciler_C3_lookup (db : Db) (e : SubscriptionEntity) (status : String)
    (options : CreemOptions) (customerId productId : String)
    (hcust : e.customer = some customerId)
    (hprod : e.product = some productId) :
    (∀ s, db.subs.find? (fun r => r.creemSubscriptionId == some e.id) = some s →
        lookupSubscription db.subs e.id customerId productId = some s) ∧
    (db.subs.find? (fun r => r.creemSubscriptionId == some e.id) = none →
      customerId ≠ "" →
        lookupSubscription db.subs e.id customerId productId =
          (match (db.subs.filter (fun r => r.creemCustomerId == some customerId)).find?
              (fun r => r.productId == productId) with
           | some s => some s
           | none =>
              (db.subs.filter (fun r => r.creemCustomerId == some customerId)).head?)) ∧
    (lookupSubscription db.subs e.id customerId productId = none →
        (updateSubscriptionFromEvent db e status options).1 = db ∧
        (updateSubscriptionFromEvent db e status options).2.countP
          (fun o => o.isWrite) = 0) ∧
    (∀ s, db.subs.find? (fun r => r.creemSubscriptionId == some e.id) = none →
        customerId ≠ "" →
        db.subs.filter (fun r => r.creemCustomerId == some customerId &&
          r.productId == productId) = [s] →
        (options.persistSubscriptions == some false) = false →
        strFalsy e.metadataReferenceId = false →
        lookupSubscription db.subs e.id customerId productId = some s ∧
        (updateSubscriptionFromEvent db e status options).1.subs =
          db.subs.map (fun r => if r.id == s.id
            then applySubscriptionUpdate s e status customerId else r) ∧
        (updateSubscriptionFromEvent db e status options).1.subs.length =
          db.subs.length ∧
        (updateSubscriptionFromEvent db e status options).2.countP
          (fun o => match o with | Op.create _ => true | _ => false) = 0 ∧
        Op.update "creem_subscription" "id" s.id ∈
          (updateSubscriptionFromEvent db e status options).2) := by
  refine ⟨?_, ?_, ?_, ?_⟩
  · intro s hfind
    simp [lookupSubscription, hfind]
  · intro hnone hcid
    simp [lookupSubscription, hnone, hcid]
  · intro hnone
    by_cases hp : (options.persistSubscriptions == some false) = true
    · simp [updateSubscriptionFromEvent, hp]
    · by_cases hr : strFalsy e.metadataReferenceId = true
      · simp [updateSubscriptionFromEvent, hp, hr]
      · refine ⟨?_, ?_⟩
        · simp [updateSubscriptionFromEvent, hp, hr, hcust, hprod, hnone]
        · simp only [updateSubscriptionFromEvent, hp, hr, hcust, hprod, hnone,
            Bool.false_eq_true, if_false]
          split <;> simp [Op.isWrite]
  · intro s hnone hcid huniq hp hr
    have hfind : (db.subs.filter
        (fun r => r.creemCustomerId == some customerId)).find?
          (fun r => r.productId == productId) = some s :=
      find?_filter_of_filter_pair huniq
    have hlook : lookupSubscription db.subs e.id customerId productId = some s := by
      simp [lookupSubscription, hnone, hcid, hfind]
    have hsubs := updateSubscriptionFromEvent_located db e status options
      customerId productId s hp hr hcust hprod hlook
    have hops := updateSubscriptionFromEvent_located_ops db e status options
      customerId productId s hp hr hcust hprod hlook
    refine ⟨hlook, hsubs, ?_, ?_, ?_⟩
    · rw [hsubs, List.length_map]
    · rw [hops]
      split <;> simp
    · rw [hops]
      simp

/-- C3 witness: with no providerSubscriptionId match and exactly one
record for the event's customer and product, the reconciler locates that
record, keeps the table length unchanged, creates nothing and issues one
update keyed by the record's local id. -/
theorem reconciler_C3_lookup_witness :
    lookupSubscription dbFallback.subs entFallback.id "cus_1" "prod_1" =
      some subRecFallback ∧
    (updateSubscriptionFromEvent dbFallback entFallback "active"
        optionsPersist).1.subs.length = dbFallback.subs.length ∧
    (updateSubscriptionFromEvent dbFallback entFallback "active"
        optionsPersist).2.countP
      (fun o => match o with | Op.create _ => true | _ => false) = 0 ∧
    Op.update "creem_subscription" "id" subRecFallback.id ∈
      (updateSubscriptionFromEvent dbFallback entFallback "active" optionsPersist).2 :=
  have h := (reconciler_C3_lookup dbFallback entFallback "active" optionsPersist
      "cus_1" "prod_1" rfl rfl).2.2.2 subRecFallback (by decide) (by decide)
      (by decide) rfl rfl
  ⟨h.1, h.2.2.1, h.2.2.2.1, h.2.2.2.2⟩

/-! Claim C9. -/

/-- Helper: the reconciler never touches the user table. -/
theorem updateSubscriptionFromEvent_users (db : Db) (e : SubscriptionEntity)
    (status : String) (options : CreemOptions) :
    (updateSubscriptionFromEvent db e status options).1.users = db.users := by
  unfold updateSubscriptionFromEvent
  repeat' split
  all_goals rfl

/-- Helper: the reconciler's trace contains no user-table write. -/
theorem updateSubscriptionFromEvent_no_user_ops (db : Db) (e : SubscriptionEntity)
    (status : String) (options : CreemOptions) :
    (updateSubscriptionFromEvent db e status options).2.countP
      (fun o => o.isUserWrite) = 0 := by
  unfold updateSubscriptionFromEvent
  repeat' split
  all_goals simp [Op.isUserWrite]
  all_goals split <;> simp [Op.isUserWrite]



/-- Helper: the user table after the trial guard is either untouched or
the referenced user's hadTrial flag set true, everything else unchanged. -/
theorem markUserAsHadTrial_users_shape (db : Db) (e : SubscriptionEntity)
    (options : CreemOptions) :
    (markUserAsHadTrial db e options).1.users = db.users ∨
    ∃ user, db.users (e.metadataReferenceId.getD "") = some user ∧
      (markUserAsHadTrial db e options).1.users = fun uid =>
        if uid = e.metadataReferenceId.getD ""
        then some { user with hadTrial := some true }
        else db.users uid := by
  unfold markUserAsHadTrial
  split
  · exact Or.inl rfl
  split
  · exact Or.inl rfl
  dsimp only
  rcases hu : db.users (e.metadataReferenceId.getD "") with - | user
  · exact Or.inl rfl
  · dsimp only
    split
    · exact Or.inr ⟨user, rfl, rfl⟩
    · exact Or.inl rfl

/-- Helper: the trial guard never turns a true hadTrial flag off. -/
theorem markUserAsHadTrial_hadTrial_mono (db : Db) (e : SubscriptionEntity)
    (options : CreemOptions) (uid : String) (u : User)
    (h : db.users uid = some u) (ht : u.hadTrial = some true) :
    ∃ v, (markUserAsHadTrial db e options).1.users uid = some v ∧
      v.hadTrial = some true := by
  rcases markUserAsHadTrial_users_shape db e options with hsh | ⟨user, -, hsh⟩
  · exact ⟨u, by rw [hsh]; exact h, ht⟩
  · rw [hsh]
    by_cases huid : uid = e.metadataReferenceId.getD ""
    · exact ⟨{ user with hadTrial := some true }, by simp [huid], rfl⟩
    · exact ⟨u, by simpa [huid] using h, ht⟩

/-- Helper: the user table after the checkout hook is either untouched or
the referenced user's creemCustomerId refreshed with hadTrial kept. -/
theorem onCheckoutCompleted_users_shape (db : Db) (checkout : CheckoutEntity)
    (options : CreemOptions) :
    (onCheckoutCompleted db checkout options).1.users = db.users ∨
    ∃ user, db.users (checkout.metadataReferenceId.getD "") = some user ∧
      (onCheckoutCompleted db checkout options).1.users = fun uid =>
        if uid = checkout.metadataReferenceId.getD ""
        then some { user with creemCustomerId := some (checkout.customerId.getD "") }
        else db.users uid := by
  unfold onCheckoutCompleted
  split
  · exact Or.inl rfl
  split
  · exact Or.inl rfl
  split
  · exact Or.inl rfl
  dsimp only
  rcases hu : db.users (checkout.metadataReferenceId.getD "") with - | user
  · dsimp only
    repeat' split
    all_goals exact Or.inl rfl
  · dsimp only
    repeat' split
    all_goals first
      | exact Or.inl rfl
      | exact Or.inr ⟨user, rfl, rfl⟩

/-- Helper: the checkout hook never turns a true hadTrial flag off. -/
theorem onCheckoutCompleted_hadTrial_mono (db : Db) (checkout : CheckoutEntity)
    (options : CreemOptions) (uid : String) (u : User)
    (h : db.users uid = some u) (ht : u.hadTrial = some true) :
    ∃ v, (onCheckoutCompleted db checkout options).1.users uid = some v ∧
      v.hadTrial = some true := by
  rcases onCheckoutCompleted_users_shape db checkout options with hsh | ⟨user, hu, hsh⟩
  · exact ⟨u, by rw [hsh]; exact h, ht⟩
  · rw [hsh]
    by_cases huid : uid = checkout.metadataReferenceId.getD ""
    · have huser : user = u := by
        rw [huid] at h
        rw [h] at hu
        exact (Option.some.injEq _ _).mp hu.symm
      refine ⟨{ user with creemCustomerId := some (checkout.customerId.getD "") },
        by simp [huid], ?_⟩
      simpa [huser] using ht
    · exact ⟨u, by simpa [huid] using h, ht⟩

/-- Helper: the trialing hook (reconcile then guard) never turns a true
hadTrial flag off. -/
theorem onSubscriptionTrialing_hadTrial_mono (db : Db) (e : SubscriptionEntity)
    (options : CreemOptions) (uid : String) (u : User)
    (h : db.users uid = some u) (ht : u.hadTrial = some true) :
    ∃ v, (onSubscriptionTrialing db e options).1.users uid = some v ∧
      v.hadTrial = some true := by
  unfold onSubscriptionTrialing
  dsimp only
  refine markUserAsHadTrial_hadTrial_mono _ e options uid u ?_ ht
  rw [updateSubscriptionFromEvent_users]
  exact h

/-- Helper: no event dispatch ever turns a true hadTrial flag off. -/
theorem handleEvent_hadTrial_mono (options : CreemOptions) (db : Db) (j : Json)
    (uid : String) (u : User)
    (h : db.users uid = some u) (ht : u.hadTrial = some true) :
    ∃ v, (handleEvent options db j).db.users uid = some v ∧
      v.hadTrial = some true := by
  unfold handleEvent
  by_cases h1 : getStrD j "eventType" "" = "checkout.completed"
  · simp only [h1]
    norm_num
    exact onCheckoutCompleted_hadTrial_mono db _ options uid u h ht
  by_cases h2 : getStrD j "eventType" "" = "refund.created"
  · simp [h1, h2]
    exact ⟨u, h, ht⟩
  by_cases h3 : getStrD j "eventType" "" = "dispute.created"
  · simp [h1, h2, h3]
    exact ⟨u, h, ht⟩
  by_cases h4 : getStrD j "eventType" "" = "subscription.active"
  · simp [h1, h2, h3, h4]
    refine ⟨u, ?_, ht⟩
    show (updateSubscriptionFromEvent db _ _ options).1.users uid = some u
    rw [updateSubscriptionFromEvent_users]
    exact h
  by_cases h5 : getStrD j "eventType" "" = "subscription.trialing"
  · simp [h1, h2, h3, h4, h5]
    exact onSubscriptionTrialing_hadTrial_mono db _ options uid u h ht
  by_cases h6 : getStrD j "eventType" "" = "subscription.canceled"
  · simp [h1, h2, h3, h4, h5, h6]
    refine ⟨u, ?_, ht⟩
    show (updateSubscriptionFromEvent db _ _ options).1.users uid = some u
    rw [updateSubscriptionFromEvent_users]
    exact h
  by_cases h7 : getStrD j "eventType" "" = "subscription.paid"
  · simp [h1, h2, h3, h4, h5, h6, h7]
    refine ⟨u, ?_, ht⟩
    show (updateSubscriptionFromEvent db _ _ options).1.users uid = some u
    rw [updateSubscriptionFromEvent_users]
    exact h
  by_cases h8 : getStrD j "eventType" "" = "subscription.expired"
  · simp [h1, h2, h3, h4, h5, h6, h7, h8]
    refine ⟨u, ?_, ht⟩
    show (updateSubscriptionFromEvent db _ _ options).1.users uid = some u
    rw [updateSubscriptionFromEvent_users]
    exact h
  by_cases h9 : getStrD j "eventType" "" = "subscription.unpaid"
  · simp [h1, h2, h3, h4, h5, h6, h7, h8, h9]
    refine ⟨u, ?_, ht⟩
    show (updateSubscriptionFromEvent db _ _ options).1.users uid = some u
    rw [updateSubscriptionFromEvent_users]
    exact h
  by_cases h10 : getStrD j "eventType" "" = "subscription.update"
  · simp [h1, h2, h3, h4, h5, h6, h7, h8, h9, h10]
    refine ⟨u, ?_, ht⟩
    show (updateSubscriptionFromEvent db _ _ options).1.users uid = some u
    rw [updateSubscriptionFromEvent_users]
    exact h
  by_cases h11 : getStrD j "eventType" "" = "subscription.past_due"
  · simp [h1, h2, h3, h4, h5, h6, h7, h8, h9, h10, h11]
    refine ⟨u, ?_, ht⟩
    show (updateSubscriptionFromEvent db _ _ options).1.users uid = some u
    rw [updateSubscriptionFromEvent_users]
    exact h
  by_cases h12 : getStrD j "eventType" "" = "subscription.paused"
  · simp [h1, h2, h3, h4, h5, h6, h7, h8, h9, h10, h11, h12]
    refine ⟨u, ?_, ht⟩
    show (updateSubscriptionFromEvent db _ _ options).1.users uid = some u
    rw [updateSubscriptionFromEvent_users]
    exact h
  · simp [h1, h2, h3, h4, h5, h6, h7, h8, h9, h10, h11, h12]
    exact ⟨u, h, ht⟩

/-- Helper: a complete run of the trial guard when the referenced user
exists: one flag-setting update when hadTrial is not yet true, otherwise a
read and no write. -/
theorem markUserAsHadTrial_run (db : Db) (e : SubscriptionEntity)
    (options : CreemOptions) (rid : String) (u : User)
    (hpersist : (options.persistSubscriptions == some false) = false)
    (href : e.metadataReferenceId = some rid)
    (hrid : rid.isEmpty = false)
    (huser : db.users rid = some u) :
    markUserAsHadTrial db e options =
      (if (u.hadTrial != some true) = true then
        ({ db with users := fun uid =>
            if uid = rid then some { u with hadTrial := some true } else db.users uid },
         [Op.findOne "user" "id" rid, Op.update "user" "id" rid])
       else (db, [Op.findOne "user" "id" rid])) := by
  unfold markUserAsHadTrial
  rw [href]
  simp only [hpersist, Bool.false_eq_true, if_false, strFalsy, hrid,
    Option.getD_some, huser]
  split <;> simp

/-- C9: two consecutive subscription.trialing reconciliations for the same
referenced user perform exactly one user-table write, which turns hadTrial
from not-true to true; the second run writes nothing to the user table and
leaves every user unchanged; and no dispatched event ever resets a true
hadTrial flag. -/
theorem trial_C9_guard (options : CreemOptions) (db : Db) (e : SubscriptionEntity)
    (rid : String) (u : User)
    (hpersist : (options.persistSubscriptions == some false) = false)
    (href : e.metadataReferenceId = some rid)
    (hrid : rid.isEmpty = false)
    (huser : db.users rid = some u)
    (hnot : (u.hadTrial == some true) = false) :
    ((onSubscriptionTrialing db e options).1.users rid =
      some { u with hadTrial := some true }) ∧
    ((onSubscriptionTrialing db e options).2.countP (fun o => o.isUserWrite) = 1) ∧
    ((onSubscriptionTrialing (onSubscriptionTrialing db e options).1 e
        options).2.countP (fun o => o.isUserWrite) = 0) ∧
    (∀ uid, (onSubscriptionTrialing (onSubscriptionTrialing db e options).1 e
        options).1.users uid = (onSubscriptionTrialing db e options).1.users uid) ∧
    (∀ (db2 : Db) (j : Json) (uid : String) (v : User),
        db2.users uid = some v → v.hadTrial = some true →
        ∃ w, (handleEvent options db2 j).db.users uid = some w ∧
          w.hadTrial = some true) := by
  have hflag : (u.hadTrial != some true) = true := by
    simp only [bne, hnot, Bool.not_false]
  have huser1 : (updateSubscriptionFromEvent db e "trialing" options).1.users rid =
      some u := by
    rw [updateSubscriptionFromEvent_users]; exact huser
  have hrun1 := markUserAsHadTrial_run
    (updateSubscriptionFromEvent db e "trialing" options).1 e options rid u
    hpersist href hrid huser1
  rw [if_pos hflag] at hrun1
  have hfirst : (onSubscriptionTrialing db e options).1.users =
      fun uid => if uid = rid
        then some { u with hadTrial := some true }
        else (updateSubscriptionFromEvent db e "trialing" options).1.users uid := by
    show (markUserAsHadTrial
      (updateSubscriptionFromEvent db e "trialing" options).1 e options).1.users = _
    rw [hrun1]
  have hget1 : (onSubscriptionTrialing db e options).1.users rid =
      some { u with hadTrial := some true } := by
    rw [hfirst]
    simp
  have huser2 : (updateSubscriptionFromEvent
      (onSubscriptionTrialing db e options).1 e "trialing" options).1.users rid =
      some { u with hadTrial := some true } := by
    rw [updateSubscriptionFromEvent_users]; exact hget1
  have hrun2 := markUserAsHadTrial_run
    (updateSubscriptionFromEvent
      (onSubscriptionTrialing db e options).1 e "trialing" options).1
    e options rid { u with hadTrial := some true }
    hpersist href hrid huser2
  rw [if_neg (by simp)] at hrun2
  refine ⟨hget1, ?_, ?_, ?_, ?_⟩
  · show ((updateSubscriptionFromEvent db e "trialing" options).2 ++
      (markUserAsHadTrial
        (updateSubscriptionFromEvent db e "trialing" options).1 e options).2).countP
        (fun o => o.isUserWrite) = 1
    rw [List.countP_append, updateSubscriptionFromEvent_no_user_ops, hrun1]
    simp [Op.isUserWrite]
  · show ((updateSubscriptionFromEvent
        (onSubscriptionTrialing db e options).1 e "trialing" options).2 ++
      (markUserAsHadTrial
        (updateSubscriptionFromEvent
          (onSubscriptionTrialing db e options).1 e "trialing" options).1
          e options).2).countP (fun o => o.isUserWrite) = 0
    rw [List.countP_append, updateSubscriptionFromEvent_no_user_ops, hrun2]
    simp [Op.isUserWrite]
  · intro uid
    show (markUserAsHadTrial
        (updateSubscriptionFromEvent
          (onSubscriptionTrialing db e options).1 e "trialing" options).1
        e options).1.users uid = _
    rw [hrun2, updateSubscriptionFromEvent_users]
  · intro db2 j uid v hv hvt
    exact handleEvent_hadTrial_mono options db2 j uid v hv hvt

/-- C9 witness: two consecutive trialing events for user_1 set hadTrial
with exactly one user write, the second run writing nothing. -/
theorem trial_C9_guard_witness :
    ((onSubscriptionTrialing dbUserOnly entForFlag optionsPersist).1.users "user_1" =
      some { userNoTrial with hadTrial := some true }) ∧
    ((onSubscriptionTrialing dbUserOnly entForFlag optionsPersist).2.countP
        (fun o => o.isUserWrite) = 1) ∧
    ((onSubscriptionTrialing
        (onSubscriptionTrialing dbUserOnly entForFlag optionsPersist).1
        entForFlag optionsPersist).2.countP (fun o => o.isUserWrite) = 0) :=
  have h := trial_C9_guard optionsPersist dbUserOnly entForFlag "user_1" userNoTrial
    rfl rfl rfl (by decide) rfl
  ⟨h.1, h.2.1, h.2.2.1⟩
